import Mathlib

/-!
Verification development for the sites-toolbox admin page
(`src/sites_toolbox.py` of the `analysis-dashboard` repository).

The helper functions of `sites_toolbox.py` are embedded as Lean functions
over an explicit relational state `DB`.  The data-access layer the helpers
call (`pvsite_datamodel.read` and the repository's `get_data` module, which
is not part of the snapshot) is modelled from the specification's data
model and external-interface contract: lookups return `Option`
(`none` = NotFound), mutation primitives return the updated `DB`.
Machine-level details that the claims do not touch (UUID generation,
timestamps beyond the stored creation date, floating point rendering) are
represented by the strings the page would display.
-/

namespace SitesToolbox

/-- A calendar date as stored in `site.created_utc`; the page only ever
formats it with `strftime("%Y-%m-%d")`. -/
structure UTCDate where
  year : Nat
  month : Nat
  day : Nat
deriving DecidableEq

def pad2 (n : Nat) : String :=
  if n < 10 then "0" ++ toString n else toString n

def pad4 (n : Nat) : String :=
  if n < 10 then "000" ++ toString n
  else if n < 100 then "00" ++ toString n
  else if n < 1000 then "0" ++ toString n
  else toString n

/-- `d.strftime("%Y-%m-%d")` for the stored creation date. -/
def strftimeYmd (d : UTCDate) : String :=
  pad4 d.year ++ "-" ++ pad2 d.month ++ "-" ++ pad2 d.day

/-- A row of the sites table.  Attribute values that the page only ever
passes through `str(...)` are modelled as the strings they render to. -/
structure Site where
  site_uuid : String
  client_site_id : String
  client_site_name : String
  latitude : String
  longitude : String
  region : String
  dno : String
  gsp : String
  tilt : String
  orientation : String
  inverter_capacity_kw : String
  module_capacity_kw : String
  capacity_kw : String
  created_utc : UTCDate
deriving DecidableEq

/-- A site group: its unique name and its membership rows (site UUIDs),
in row order. -/
structure SiteGroup where
  site_group_name : String
  site_uuids : List String
deriving DecidableEq

/-- A user row: unique email and the single group it belongs to
(one-to-many foreign key, named by the group's unique name). -/
structure User where
  email : String
  site_group_name : String
deriving DecidableEq

/-- The relational state visible to the helpers. -/
structure DB where
  sites : List Site
  site_groups : List SiteGroup
  users : List User
deriving DecidableEq

/-- Error taxonomy of the spec: NotFound for unresolved lookups, and the
`ValueError` that `select_site_id` raises on an invalid query method. -/
inductive ToolboxError where
  | NotFound
  | ValueError
deriving DecidableEq

/-- Modelled from the spec: `get_all_sites` (Data Access Layer, external
`pvsite_datamodel.read`): list-all-sites. -/
def get_all_sites (db : DB) : List Site := db.sites

/-- Modelled from the spec: `get_user_by_email` (Data Access Layer):
lookup-by-email, failing distinguishably (`none`) when the key is absent. -/
def get_user_by_email (db : DB) (email : String) : Option User :=
  db.users.find? (fun u => u.email == email)

/-- Modelled from the spec: `get_site_by_uuid` (Data Access Layer):
lookup-by-uuid, failing distinguishably when the key is absent. -/
def get_site_by_uuid (db : DB) (site_uuid : String) : Option Site :=
  db.sites.find? (fun s => s.site_uuid == site_uuid)

/-- Modelled from the spec: `get_site_group_by_name` (Data Access Layer):
lookup-by-group-name, failing distinguishably when the key is absent. -/
def get_site_group_by_name (db : DB) (site_group_name : String) : Option SiteGroup :=
  db.site_groups.find? (fun g => g.site_group_name == site_group_name)

/-- Modelled from the spec: `get_site_by_client_site_id` (from the
repository's `get_data` module, absent from the snapshot):
lookup-by-client-id, failing distinguishably when the key is absent. -/
def get_site_by_client_site_id (db : DB) (client_site_id : String) : Option Site :=
  db.sites.find? (fun s => s.client_site_id == client_site_id)

/-- ORM navigation `group.sites`: each membership row resolved to its
site row, in row order. -/
def groupSites (db : DB) (g : SiteGroup) : List Site :=
  g.site_uuids.filterMap (fun u => get_site_by_uuid db u)

/-- ORM navigation `group.users`: emails of the users whose single group
assignment is this group. -/
def groupUsers (db : DB) (g : SiteGroup) : List String :=
  (db.users.filter (fun u => u.site_group_name == g.site_group_name)).map (fun u => u.email)

/-- ORM navigation `site.site_groups`, reduced to the group names the page
displays: the groups whose membership rows contain this site. -/
def siteGroupNames (db : DB) (s : Site) : List String :=
  (db.site_groups.filter (fun g => g.site_uuids.contains s.site_uuid)).map
    (fun g => g.site_group_name)

/-- Replace the first group carrying `name` (the row the ORM lookup
returns) by its image under `f`; all other rows are untouched. -/
def updateFirstGroup (name : String) (f : SiteGroup → SiteGroup) :
    List SiteGroup → List SiteGroup
  | [] => []
  | g :: gs =>
    if g.site_group_name = name then f g :: gs else g :: updateFirstGroup name f gs

/-- Modelled from the spec: `add_site_to_site_group` (from the repository's
`get_data` module, absent from the snapshot): append-site-to-group, where
"site-to-group membership is a set relation: adding a site already in the
group is a no-op (idempotent by construction — must not duplicate)", and
both the group and the site must exist. -/
def add_site_to_site_group (db : DB) (site_uuid : String) (site_group_name : String) :
    Except ToolboxError DB :=
  match get_site_group_by_name db site_group_name with
  | none => .error .NotFound
  | some g =>
    match get_site_by_uuid db site_uuid with
    | none => .error .NotFound
    | some _ =>
      if site_uuid ∈ g.site_uuids then .ok db
      else .ok { db with
        site_groups := updateFirstGroup site_group_name
          (fun h => { h with site_uuids := h.site_uuids ++ [site_uuid] }) db.site_groups }

/-- Modelled from the spec: `update_user_site_group` (from the repository's
`get_data` module, absent from the snapshot): reassign-user-group —
"replaces the user's current group membership with the new group (single
assignment, not additive)"; user and group must exist. -/
def update_user_site_group (db : DB) (email : String) (site_group_name : String) :
    Except ToolboxError DB :=
  match get_user_by_email db email with
  | none => .error .NotFound
  | some _ =>
    match get_site_group_by_name db site_group_name with
    | none => .error .NotFound
    | some _ =>
      .ok { db with
        users := db.users.map (fun u =>
          if u.email = email then { u with site_group_name := site_group_name } else u) }

/-- `get_user_details` (src/sites_toolbox.py lines 27-36): look the user up
by email, then return the user's group's sites as
(site_uuid, client_site_id) pairs, the group's name, and the count of
sites in the group.  The `user.site_group` foreign-key navigation is the
group lookup by the user's stored group name. -/
def get_user_details (db : DB) (email : String) :
    Except ToolboxError (List (String × String) × String × Nat) :=
  match get_user_by_email db email with
  | none => .error .NotFound
  | some user =>
    match get_site_group_by_name db user.site_group_name with
    | none => .error .NotFound
    | some g =>
      .ok ((groupSites db g).map (fun s => (s.site_uuid, s.client_site_id)),
           g.site_group_name,
           (groupSites db g).length)

/-- The flattened site view built by `get_site_details`
(src/sites_toolbox.py lines 40-62), field for field. -/
structure SiteDetails where
  site_uuid : String
  client_site_id : String
  client_site_name : String
  site_group_names : List String
  latitude : String
  longitude : String
  region : String
  dno : String
  gsp : String
  tilt : String
  orientation : String
  inverter_capacity_kw : String
  module_capacity_kw : String
  capacity : String
  date_added : String
deriving DecidableEq

/-- `get_site_details` (src/sites_toolbox.py lines 40-62): look the site up
by UUID and flatten it, with capacities suffixed " kw" and the creation
date formatted "%Y-%m-%d". -/
def get_site_details (db : DB) (site_uuid : String) : Except ToolboxError SiteDetails :=
  match get_site_by_uuid db site_uuid with
  | none => .error .NotFound
  | some site =>
    .ok { site_uuid := site.site_uuid
          client_site_id := site.client_site_id
          client_site_name := site.client_site_name
          site_group_names := siteGroupNames db site
          latitude := site.latitude
          longitude := site.longitude
          region := site.region
          dno := site.dno
          gsp := site.gsp
          tilt := site.tilt
          orientation := site.orientation
          inverter_capacity_kw := site.inverter_capacity_kw ++ " kw"
          module_capacity_kw := site.module_capacity_kw ++ " kw"
          capacity := site.capacity_kw ++ " kw"
          date_added := strftimeYmd site.created_utc }

/-- `get_site_group_details` (src/sites_toolbox.py lines 86-96): group's
member sites as (site_uuid, client_site_id) pairs and its member users'
emails. -/
def get_site_group_details (db : DB) (site_group_name : String) :
    Except ToolboxError (List (String × String) × List String) :=
  match get_site_group_by_name db site_group_name with
  | none => .error .NotFound
  | some g =>
    .ok ((groupSites db g).map (fun s => (s.site_uuid, s.client_site_id)),
         groupUsers db g)

/-- The `st.selectbox` widget: it yields the user's choice when that is one
of the offered options, otherwise the widget's default — the first option —
and Python `None` when there are no options at all. -/
def st_selectbox (options : List String) (choice : String) : Option String :=
  if choice ∈ options then some choice else options.head?

/-- The client-id branch of `select_site_id` (src/sites_toolbox.py lines
76-79): resolve a client site id to the site's UUID, propagating NotFound
from the lookup. -/
def lookup_uuid_by_client_site_id (db : DB) (client_site_id : String) :
    Except ToolboxError (Option String) :=
  match get_site_by_client_site_id db client_site_id with
  | none => .error .NotFound
  | some site => .ok (some site.site_uuid)

/-- `select_site_id` (src/sites_toolbox.py lines 66-82): for
`"site_uuid"` return the selected UUID directly (Python `None` when the
select box is empty); for `"client_site_id"` resolve the selected client
id through the lookup; any other query method raises `ValueError` without
touching the database. -/
def select_site_id (db : DB) (query_method : String) (choice : String) :
    Except ToolboxError (Option String) :=
  if query_method = "site_uuid" then
    .ok (st_selectbox (db.sites.map (fun s => s.site_uuid)) choice)
  else if query_method = "client_site_id" then
    match st_selectbox (db.sites.map (fun s => s.client_site_id)) choice with
    | none => .error .NotFound
    | some cid => lookup_uuid_by_client_site_id db cid
  else .error .ValueError

/-- `update_site_group` (src/sites_toolbox.py lines 100-114): fetch the
group, add the site to it, then report the (live, hence updated) group, its
site list as pairs, and the full list of groups the site now belongs to. -/
def update_site_group (db : DB) (site_uuid : String) (site_group_name : String) :
    Except ToolboxError (SiteGroup × List (String × String) × List String × DB) :=
  match get_site_group_by_name db site_group_name with
  | none => .error .NotFound
  | some _ =>
    match add_site_to_site_group db site_uuid site_group_name with
    | .error e => .error e
    | .ok db2 =>
      match get_site_group_by_name db2 site_group_name with
      | none => .error .NotFound
      | some g2 =>
        match get_site_by_uuid db2 site_uuid with
        | none => .error .NotFound
        | some site =>
          .ok (g2,
               (groupSites db2 g2).map (fun s => (s.site_uuid, s.client_site_id)),
               siteGroupNames db2 site,
               db2)

/-- `change_user_site_group` (src/sites_toolbox.py lines 118-129): reassign
the user's group, then re-read the user and report email and new group
name. -/
def change_user_site_group (db : DB) (email : String) (site_group_name : String) :
    Except ToolboxError (String × String × DB) :=
  match update_user_site_group db email site_group_name with
  | .error e => .error e
  | .ok db2 =>
    match get_user_by_email db2 email with
    | none => .error .NotFound
    | some user =>
      match get_site_group_by_name db2 user.site_group_name with
      | none => .error .NotFound
      | some g => .ok (user.email, g.site_group_name, db2)

/-- The success message the bulk-attach loop writes after each addition. -/
def addedMessage (site_group_name : String) (n : Nat) : String :=
  s!"Added {n} sites to group {site_group_name}."

/-- The message returned when no site needed adding. -/
def noNewSitesMessage (site_group_name : String) : String :=
  s!"There are no new sites to be added to {site_group_name}."

/-- The `for site in all_sites` loop of `add_all_sites_to_ocf_group`
(src/sites_toolbox.py lines 147-152): membership is tested against the
snapshot `initial_uuids` taken before the loop; each addition appends to
`sites_added` and rewrites `message` with the running count. -/
def bulkAddLoop (site_group_name : String) (initial_uuids : List String) :
    List Site → List String → Option String → List String × Option String
  | [], sites_added, message => (sites_added, message)
  | site :: rest, sites_added, message =>
    if site.site_uuid ∈ initial_uuids then
      bulkAddLoop site_group_name initial_uuids rest sites_added message
    else
      bulkAddLoop site_group_name initial_uuids rest (sites_added ++ [site.site_uuid])
        (some (addedMessage site_group_name (sites_added ++ [site.site_uuid]).length))

/-- `add_all_sites_to_ocf_group` (src/sites_toolbox.py lines 133-157):
fetch the target group, run the loop over all sites, and return the final
message (the no-new-sites message when nothing was added, otherwise the
loop's last message) together with the added UUIDs and the state in which
the group's membership has grown by exactly those rows. -/
def add_all_sites_to_ocf_group (db : DB) (site_group_name : String) :
    Except ToolboxError (String × List String × DB) :=
  match get_site_group_by_name db site_group_name with
  | none => .error .NotFound
  | some g =>
    let r := bulkAddLoop site_group_name g.site_uuids (get_all_sites db) [] none
    let db2 : DB := { db with
      site_groups := updateFirstGroup site_group_name
        (fun h => { h with site_uuids := h.site_uuids ++ r.1 }) db.site_groups }
    let message :=
      if r.1.length = 0 then noNewSitesMessage site_group_name
      else r.2.getD (noNewSitesMessage site_group_name)
    .ok (message, r.1, db2)

/-- Python's `json.dumps({"dno_id": ..., "name": ..., "long_name": ...})`
as the page builds `dno_formatted` (src/sites_toolbox.py line 343). -/
def json_dumps_dno (dno_id dno_name dno_long_name : String) : String :=
  "\x7b\"dno_id\": \"" ++ dno_id ++ "\", \"name\": \"" ++ dno_name ++
    "\", \"long_name\": \"" ++ dno_long_name ++ "\"\x7d"

/-- Python's `json.dumps({"gsp_id": ..., "name": ...})` as the page builds
`gsp_formatted` (src/sites_toolbox.py line 362). -/
def json_dumps_gsp (gsp_id gsp_name : String) : String :=
  "\x7b\"gsp_id\": \"" ++ gsp_id ++ "\", \"name\": \"" ++ gsp_name ++ "\"\x7d"

/-- What the "Create new site" click handler does after the guard. -/
inductive FormAction where
  | missing_data_message
  | create_called (args : List String)
deriving DecidableEq

/-- The "Create new site" submission guard (src/sites_toolbox.py lines
388-416): the handler tests `None in [client_site_id, ...]` over the
values of the twelve text inputs — which, being `st.text_input` results,
are always strings (`some _`), never `None` — and calls `create_new_site`
with the collected fields otherwise. -/
def create_new_site_submit (client_site_id client_site_name dno_id dno_name dno_long_name
    gsp_id gsp_name latitude longitude region orientation tilt
    inverter_capacity_kw module_capacity_kw capacity_kw : String) : FormAction :=
  let dno_formatted := json_dumps_dno dno_id dno_name dno_long_name
  let gsp_formatted := json_dumps_gsp gsp_id gsp_name
  if ([some client_site_id, some client_site_name, some region, some dno_formatted,
       some gsp_formatted, some orientation, some tilt, some latitude, some longitude,
       some inverter_capacity_kw, some module_capacity_kw, some capacity_kw] :
      List (Option String)).contains none then
    .missing_data_message
  else
    .create_called [client_site_id, client_site_name, region, dno_formatted, gsp_formatted,
      orientation, tilt, latitude, longitude, inverter_capacity_kw, module_capacity_kw,
      capacity_kw]

/-! Concrete sample states used by the witnesses and counterexamples. -/

def siteA : Site :=
  { site_uuid := "uuid-a", client_site_id := "ca", client_site_name := "Site A"
    latitude := "51.5", longitude := "-0.1", region := "London"
    dno := "10", gsp := "280", tilt := "30", orientation := "180"
    inverter_capacity_kw := "3", module_capacity_kw := "4", capacity_kw := "5"
    created_utc := { year := 2024, month := 1, day := 2 } }

def siteB : Site :=
  { site_uuid := "uuid-b", client_site_id := "cb", client_site_name := "Site B"
    latitude := "52.2", longitude := "0.1", region := "East"
    dno := "12", gsp := "281", tilt := "35", orientation := "175"
    inverter_capacity_kw := "6", module_capacity_kw := "7", capacity_kw := "8"
    created_utc := { year := 2024, month := 3, day := 15 } }

def userU : User := { email := "u@x.com", site_group_name := "ocf" }

def ocfGroup : SiteGroup := { site_group_name := "ocf", site_uuids := ["uuid-a"] }

def grp2 : SiteGroup := { site_group_name := "grp2", site_uuids := [] }

def dbSample : DB :=
  { sites := [siteA, siteB], site_groups := [ocfGroup, grp2], users := [userU] }

def emptyDB : DB := { sites := [], site_groups := [], users := [] }

/-- `dbSample` after every site has been attached to the "ocf" group. -/
def dbAfterBulk : DB :=
  { sites := [siteA, siteB]
    site_groups := [{ site_group_name := "ocf", site_uuids := ["uuid-a", "uuid-b"] }, grp2]
    users := [userU] }

/-! Basic facts about the spec-modelled lookups. -/

lemma get_site_group_by_name_name {db : DB} {n : String} {g : SiteGroup}
    (h : get_site_group_by_name db n = some g) : g.site_group_name = n := by
  have := List.find?_some h
  simpa using this

lemma get_site_group_by_name_mem {db : DB} {n : String} {g : SiteGroup}
    (h : get_site_group_by_name db n = some g) : g ∈ db.site_groups :=
  List.mem_of_find?_eq_some h

lemma get_user_by_email_email {db : DB} {e : String} {u : User}
    (h : get_user_by_email db e = some u) : u.email = e := by
  have := List.find?_some h
  simpa using this

lemma get_user_by_email_mem {db : DB} {e : String} {u : User}
    (h : get_user_by_email db e = some u) : u ∈ db.users :=
  List.mem_of_find?_eq_some h

lemma get_site_by_uuid_uuid {db : DB} {x : String} {s : Site}
    (h : get_site_by_uuid db x = some s) : s.site_uuid = x := by
  have := List.find?_some h
  simpa using this

lemma get_site_by_uuid_mem {db : DB} {x : String} {s : Site}
    (h : get_site_by_uuid db x = some s) : s ∈ db.sites :=
  List.mem_of_find?_eq_some h

/-! Facts about `updateFirstGroup`. -/

lemma find?_updateFirstGroup (name : String) (f : SiteGroup → SiteGroup)
    (hf : ∀ g, (f g).site_group_name = g.site_group_name) :
    ∀ l : List SiteGroup,
      (updateFirstGroup name f l).find? (fun g => g.site_group_name == name) =
        (l.find? (fun g => g.site_group_name == name)).map f
  | [] => rfl
  | g :: gs => by
    by_cases h : g.site_group_name = name
    · simp [updateFirstGroup, h, List.find?_cons, hf]
    · simp [updateFirstGroup, h, List.find?_cons, find?_updateFirstGroup name f hf gs]

lemma filter_ne_updateFirstGroup (name : String) (f : SiteGroup → SiteGroup)
    (hf : ∀ g, (f g).site_group_name = g.site_group_name) :
    ∀ l : List SiteGroup,
      (updateFirstGroup name f l).filter (fun g => !(g.site_group_name == name)) =
        l.filter (fun g => !(g.site_group_name == name))
  | [] => rfl
  | g :: gs => by
    by_cases h : g.site_group_name = name
    · simp [updateFirstGroup, h, List.filter_cons, hf]
    · simp [updateFirstGroup, h, List.filter_cons,
        filter_ne_updateFirstGroup name f hf gs]

lemma updateFirstGroup_id (name : String) (f : SiteGroup → SiteGroup)
    (hf : ∀ g, f g = g) : ∀ l : List SiteGroup, updateFirstGroup name f l = l
  | [] => rfl
  | g :: gs => by
    by_cases h : g.site_group_name = name
    · simp [updateFirstGroup, h, hf]
    · simp [updateFirstGroup, h, updateFirstGroup_id name f hf gs]

/-! Closed forms for the bulk-attach loop. -/

/-- The UUIDs of the sites that are not yet members of `g`: exactly the
rows the bulk-attach loop appends, in `get_all_sites` order. -/
def newSiteUuids (db : DB) (g : SiteGroup) : List String :=
  db.sites.filterMap (fun s => if s.site_uuid ∈ g.site_uuids then none else some s.site_uuid)

lemma bulkAddLoop_fst (gname : String) (init : List String) :
    ∀ (sites : List Site) (acc : List String) (msg : Option String),
      (bulkAddLoop gname init sites acc msg).1 =
        acc ++ sites.filterMap (fun s => if s.site_uuid ∈ init then none else some s.site_uuid)
  | [], acc, msg => by simp [bulkAddLoop]
  | s :: rest, acc, msg => by
    by_cases h : s.site_uuid ∈ init
    · simp [bulkAddLoop, h, bulkAddLoop_fst gname init rest acc msg]
    · simp [bulkAddLoop, h, bulkAddLoop_fst gname init rest (acc ++ [s.site_uuid])]

lemma bulkAddLoop_snd (gname : String) (init : List String) :
    ∀ (sites : List Site) (acc : List String) (msg : Option String),
      (bulkAddLoop gname init sites acc msg).2 =
        if sites.filterMap (fun s => if s.site_uuid ∈ init then none else some s.site_uuid) = []
        then msg
        else some (addedMessage gname (acc.length +
          (sites.filterMap (fun s =>
            if s.site_uuid ∈ init then none else some s.site_uuid)).length))
  | [], acc, msg => by simp [bulkAddLoop]
  | s :: rest, acc, msg => by
    by_cases h : s.site_uuid ∈ init
    · simpa [bulkAddLoop, h] using bulkAddLoop_snd gname init rest acc msg
    · have ih := bulkAddLoop_snd gname init rest (acc ++ [s.site_uuid])
        (some (addedMessage gname (acc ++ [s.site_uuid]).length))
      simp only [List.length_append, List.length_cons, List.length_nil, Nat.zero_add] at ih
      by_cases hrest :
          rest.filterMap (fun t => if t.site_uuid ∈ init then none else some t.site_uuid) = []
      · simp [bulkAddLoop, h, ih, hrest]
      · simp [bulkAddLoop, h, ih, hrest]
        congr 1
        omega

/-- Closed form of `add_all_sites_to_ocf_group` on a resolvable group:
it returns exactly the not-yet-member site UUIDs, the matching message,
and the state where the target group's membership grew by those rows. -/
lemma add_all_spec (db : DB) (gname : String) (g : SiteGroup)
    (hg : get_site_group_by_name db gname = some g) :
    add_all_sites_to_ocf_group db gname = .ok
      ((if newSiteUuids db g = [] then noNewSitesMessage gname
        else addedMessage gname (newSiteUuids db g).length),
       newSiteUuids db g,
       { db with
          site_groups :=
            updateFirstGroup gname
              (fun h => { h with site_uuids := h.site_uuids ++ newSiteUuids db g })
              db.site_groups }) := by
  simp only [add_all_sites_to_ocf_group, hg, get_all_sites]
  simp only [bulkAddLoop_fst, bulkAddLoop_snd, List.nil_append, List.length_nil, Nat.zero_add,
    newSiteUuids]
  by_cases hnil : (db.sites.filterMap (fun s =>
      if s.site_uuid ∈ g.site_uuids then none else some s.site_uuid)) = []
  · simp [hnil]
  · have hlen : (db.sites.filterMap (fun s =>
        if s.site_uuid ∈ g.site_uuids then none else some s.site_uuid)).length ≠ 0 := by
      simpa [List.length_eq_zero] using hnil
    simp only [if_neg hnil, if_neg hlen, Option.getD_some]

lemma get_site_group_by_name_set_groups (db : DB) (l : List SiteGroup) (n : String) :
    get_site_group_by_name { db with site_groups := l } n =
      l.find? (fun g => g.site_group_name == n) := rfl

/-- C2: for every database state and target group name (resolving to a
group `g`), `add_all_sites_to_ocf_group` adds to the group exactly the
sites that were not already members, returns the list of exactly the newly
added sites' identifiers, and returns the no-new-sites message instead of
an addition count when nothing needed adding. -/
theorem add_all_sites_to_ocf_group_adds_exactly_missing (db : DB) (gname : String)
    (g : SiteGroup) (hg : get_site_group_by_name db gname = some g) :
    add_all_sites_to_ocf_group db gname = .ok
      ((if newSiteUuids db g = [] then noNewSitesMessage gname
        else addedMessage gname (newSiteUuids db g).length),
       newSiteUuids db g,
       { db with
          site_groups :=
            updateFirstGroup gname
              (fun h => { h with site_uuids := h.site_uuids ++ newSiteUuids db g })
              db.site_groups }) :=
  add_all_spec db gname g hg

/-- Witness for C2 at a concrete state: `dbSample` has one site
("uuid-b") outside the "ocf" group. -/
theorem add_all_sites_to_ocf_group_adds_exactly_missing_witness :
    get_site_group_by_name dbSample "ocf" = some ocfGroup ∧
    add_all_sites_to_ocf_group dbSample "ocf" = .ok
      ((if newSiteUuids dbSample ocfGroup = [] then noNewSitesMessage "ocf"
        else addedMessage "ocf" (newSiteUuids dbSample ocfGroup).length),
       newSiteUuids dbSample ocfGroup,
       { dbSample with
          site_groups :=
            updateFirstGroup "ocf"
              (fun h => { h with site_uuids := h.site_uuids ++ newSiteUuids dbSample ocfGroup })
              dbSample.site_groups }) :=
  ⟨rfl, add_all_sites_to_ocf_group_adds_exactly_missing dbSample "ocf" ocfGroup rfl⟩

/-- C1: running `add_all_sites_to_ocf_group` twice in succession on the
same target group adds sites only on the first run: the second run returns
an empty list of newly added identifiers and the message stating there are
no new sites to be added (and leaves the state unchanged). -/
theorem add_all_sites_to_ocf_group_idempotent (db : DB) (gname m : String)
    (a : List String) (db1 : DB)
    (h : add_all_sites_to_ocf_group db gname = .ok (m, a, db1)) :
    add_all_sites_to_ocf_group db1 gname = .ok (noNewSitesMessage gname, [], db1) := by
  cases hg : get_site_group_by_name db gname with
  | none => simp [add_all_sites_to_ocf_group, hg] at h
  | some g =>
    rw [add_all_spec db gname g hg] at h
    have h2 := Except.ok.inj h
    cases h2
    have hg1 : get_site_group_by_name
        { db with
          site_groups :=
            updateFirstGroup gname
              (fun h2 => { h2 with site_uuids := h2.site_uuids ++ newSiteUuids db g })
              db.site_groups } gname =
        some { g with site_uuids := g.site_uuids ++ newSiteUuids db g } := by
      rw [get_site_group_by_name_set_groups,
        find?_updateFirstGroup gname
          (fun h2 => { h2 with site_uuids := h2.site_uuids ++ newSiteUuids db g })
          (fun g2 => rfl) db.site_groups]
      rw [show db.site_groups.find? (fun g2 => g2.site_group_name == gname) = some g from hg]
      rfl
    rw [add_all_spec _ gname _ hg1]
    have hnil : newSiteUuids
        { db with
          site_groups :=
            updateFirstGroup gname
              (fun h2 => { h2 with site_uuids := h2.site_uuids ++ newSiteUuids db g })
              db.site_groups }
        { g with site_uuids := g.site_uuids ++ newSiteUuids db g } = [] := by
      apply List.filterMap_eq_nil_iff.mpr
      intro s hs
      by_cases hin : s.site_uuid ∈ g.site_uuids
      · simp [List.mem_append, hin]
      · have hmem : s.site_uuid ∈ newSiteUuids db g :=
          List.mem_filterMap.mpr ⟨s, hs, by simp [hin]⟩
        simp [List.mem_append, hmem]
    rw [hnil]
    rw [updateFirstGroup_id gname (fun h2 => { h2 with site_uuids := h2.site_uuids ++ [] })
      (fun g2 => by cases g2; simp)]
    rfl

/-- Witness for C1 at a concrete state: the first run over `dbSample`
attaches "uuid-b" and the second run reports no new sites. -/
theorem add_all_sites_to_ocf_group_idempotent_witness :
    add_all_sites_to_ocf_group dbSample "ocf" =
      .ok (addedMessage "ocf" 1, ["uuid-b"], dbAfterBulk) ∧
    add_all_sites_to_ocf_group dbAfterBulk "ocf" =
      .ok (noNewSitesMessage "ocf", [], dbAfterBulk) :=
  ⟨rfl, add_all_sites_to_ocf_group_idempotent dbSample "ocf" (addedMessage "ocf" 1)
    ["uuid-b"] dbAfterBulk rfl⟩

/-- The number of membership rows the target group holds for a given site
UUID (0 when the group name does not resolve). -/
def membershipRowCount (db : DB) (gname uuid : String) : Nat :=
  match get_site_group_by_name db gname with
  | none => 0
  | some g => g.site_uuids.count uuid

/-- The state reached by a successful `update_site_group` call. -/
def db_after_update (db : DB) (site_uuid site_group_name : String) : Option DB :=
  match update_site_group db site_uuid site_group_name with
  | .ok r => some r.2.2.2
  | .error _ => none

/-- The state after appending one membership row for `site_uuid` to the
first group named `site_group_name`. -/
def dbWithSiteAdded (db : DB) (site_uuid site_group_name : String) : DB :=
  { db with
    site_groups :=
      updateFirstGroup site_group_name
        (fun h => { h with site_uuids := h.site_uuids ++ [site_uuid] }) db.site_groups }

lemma get_site_group_by_name_dbWithSiteAdded (db : DB) (su gn : String) (g : SiteGroup)
    (hg : get_site_group_by_name db gn = some g) :
    get_site_group_by_name (dbWithSiteAdded db su gn) gn =
      some { g with site_uuids := g.site_uuids ++ [su] } := by
  rw [dbWithSiteAdded, get_site_group_by_name_set_groups,
    find?_updateFirstGroup gn (fun h => { h with site_uuids := h.site_uuids ++ [su] })
      (fun g2 => rfl) db.site_groups,
    show db.site_groups.find? (fun g2 => g2.site_group_name == gn) = some g from hg]
  rfl

/-- When the site is already a member, `update_site_group` reports the
current state unchanged. -/
lemma update_site_group_noop (db : DB) (su gn : String) (s : Site) (g : SiteGroup)
    (hs : get_site_by_uuid db su = some s) (hg : get_site_group_by_name db gn = some g)
    (hc : su ∈ g.site_uuids) :
    update_site_group db su gn = .ok
      (g, (groupSites db g).map (fun t => (t.site_uuid, t.client_site_id)),
       siteGroupNames db s, db) := by
  simp [update_site_group, add_site_to_site_group, hg, hs, hc]

/-- When the site is not yet a member, `update_site_group` appends exactly
one membership row to the target group. -/
lemma update_site_group_adds (db : DB) (su gn : String) (s : Site) (g : SiteGroup)
    (hs : get_site_by_uuid db su = some s) (hg : get_site_group_by_name db gn = some g)
    (hc : su ∉ g.site_uuids) :
    update_site_group db su gn = .ok
      ({ g with site_uuids := g.site_uuids ++ [su] },
       (groupSites (dbWithSiteAdded db su gn)
          { g with site_uuids := g.site_uuids ++ [su] }).map
         (fun t => (t.site_uuid, t.client_site_id)),
       siteGroupNames (dbWithSiteAdded db su gn) s,
       dbWithSiteAdded db su gn) := by
  have hg1 := get_site_group_by_name_dbWithSiteAdded db su gn g hg
  have hs1 : get_site_by_uuid (dbWithSiteAdded db su gn) su = some s := hs
  simp only [update_site_group, add_site_to_site_group, hg, hs, hc, if_neg]
  simp only [dbWithSiteAdded] at hg1 hs1 ⊢
  simp [hg1, hs1]

/-- C3: for every existing site S and existing group G (holding at most
one membership row for S, as a set relation does), attaching S to G twice
via `update_site_group` leaves exactly one membership row for (S, G). -/
theorem update_site_group_twice_single_membership_row (db : DB) (su gn : String)
    (s : Site) (g : SiteGroup)
    (hs : get_site_by_uuid db su = some s) (hg : get_site_group_by_name db gn = some g)
    (hcount : g.site_uuids.count su ≤ 1) :
    ((db_after_update db su gn).bind (fun d => db_after_update d su gn)).map
      (fun d => membershipRowCount d gn su) = some 1 := by
  by_cases hc : su ∈ g.site_uuids
  · have h1 := update_site_group_noop db su gn s g hs hg hc
    have h2 : 0 < g.site_uuids.count su := List.count_pos_iff.mpr hc
    simp [db_after_update, h1, membershipRowCount, hg]
    omega
  · have h1 := update_site_group_adds db su gn s g hs hg hc
    have hg1 := get_site_group_by_name_dbWithSiteAdded db su gn g hg
    have hs1 : get_site_by_uuid (dbWithSiteAdded db su gn) su = some s := hs
    have hc1 : su ∈ (SiteGroup.mk g.site_group_name (g.site_uuids ++ [su])).site_uuids := by
      simp
    have h2 := update_site_group_noop (dbWithSiteAdded db su gn) su gn s
      { g with site_uuids := g.site_uuids ++ [su] } hs1 hg1 hc1
    have hz : g.site_uuids.count su = 0 := List.count_eq_zero.mpr hc
    simp [db_after_update, h1, h2, membershipRowCount, hg1, List.count_append, hz]

/-- Witness for C3 at a concrete state: attaching "uuid-b" to the (empty)
group "grp2" twice. -/
theorem update_site_group_twice_single_membership_row_witness :
    ((db_after_update dbSample "uuid-b" "grp2").bind
        (fun d => db_after_update d "uuid-b" "grp2")).map
      (fun d => membershipRowCount d "grp2" "uuid-b") = some 1 :=
  update_site_group_twice_single_membership_row dbSample "uuid-b" "grp2" siteB grp2
    rfl rfl (by decide)

/-- C4: a successful `update_site_group` changes no other group: the site
and user tables are untouched, every group other than the target is
preserved verbatim (hence with identical member sites and member users),
and the site's memberships in groups other than the target are unchanged. -/
theorem update_site_group_frame (db : DB) (su gn : String) (g1 : SiteGroup)
    (p1 : List (String × String)) (n1 : List String) (db1 : DB)
    (h : update_site_group db su gn = .ok (g1, p1, n1, db1)) :
    db1.sites = db.sites ∧ db1.users = db.users ∧
    db1.site_groups.filter (fun h2 => !(h2.site_group_name == gn)) =
      db.site_groups.filter (fun h2 => !(h2.site_group_name == gn)) ∧
    (db1.site_groups.filter (fun h2 => !(h2.site_group_name == gn))).map
        (fun h2 => (h2.site_group_name, groupSites db1 h2, groupUsers db1 h2)) =
      (db.site_groups.filter (fun h2 => !(h2.site_group_name == gn))).map
        (fun h2 => (h2.site_group_name, groupSites db h2, groupUsers db h2)) ∧
    (db1.site_groups.filter (fun h2 => !(h2.site_group_name == gn))).filter
        (fun h2 => h2.site_uuids.contains su) =
      (db.site_groups.filter (fun h2 => !(h2.site_group_name == gn))).filter
        (fun h2 => h2.site_uuids.contains su) := by
  cases hg : get_site_group_by_name db gn with
  | none => simp [update_site_group, hg] at h
  | some g =>
    cases hsv : get_site_by_uuid db su with
    | none => simp [update_site_group, add_site_to_site_group, hg, hsv] at h
    | some s =>
      by_cases hc : su ∈ g.site_uuids
      · rw [update_site_group_noop db su gn s g hsv hg hc] at h
        have h2 := Except.ok.inj h
        cases h2
        exact ⟨rfl, rfl, rfl, rfl, rfl⟩
      · rw [update_site_group_adds db su gn s g hsv hg hc] at h
        have h2 := Except.ok.inj h
        cases h2
        refine ⟨rfl, rfl, ?_, ?_, ?_⟩
        · exact filter_ne_updateFirstGroup gn
            (fun h2 => { h2 with site_uuids := h2.site_uuids ++ [su] })
            (fun g2 => rfl) db.site_groups
        · rw [show (dbWithSiteAdded db su gn).site_groups.filter
              (fun h2 => !(h2.site_group_name == gn)) =
              db.site_groups.filter (fun h2 => !(h2.site_group_name == gn)) from
            filter_ne_updateFirstGroup gn
              (fun h2 => { h2 with site_uuids := h2.site_uuids ++ [su] })
              (fun g2 => rfl) db.site_groups]
          rfl
        · rw [show (dbWithSiteAdded db su gn).site_groups.filter
              (fun h2 => !(h2.site_group_name == gn)) =
              db.site_groups.filter (fun h2 => !(h2.site_group_name == gn)) from
            filter_ne_updateFirstGroup gn
              (fun h2 => { h2 with site_uuids := h2.site_uuids ++ [su] })
              (fun g2 => rfl) db.site_groups]

/-- Witness for C4 at a concrete state: attaching "uuid-b" to "ocf" leaves
"grp2" (and the site/user tables) untouched. -/
theorem update_site_group_frame_witness :
    dbAfterBulk.sites = dbSample.sites ∧ dbAfterBulk.users = dbSample.users ∧
    dbAfterBulk.site_groups.filter (fun h2 => !(h2.site_group_name == "ocf")) =
      dbSample.site_groups.filter (fun h2 => !(h2.site_group_name == "ocf")) ∧
    (dbAfterBulk.site_groups.filter (fun h2 => !(h2.site_group_name == "ocf"))).map
        (fun h2 => (h2.site_group_name, groupSites dbAfterBulk h2, groupUsers dbAfterBulk h2)) =
      (dbSample.site_groups.filter (fun h2 => !(h2.site_group_name == "ocf"))).map
        (fun h2 => (h2.site_group_name, groupSites dbSample h2, groupUsers dbSample h2)) ∧
    (dbAfterBulk.site_groups.filter (fun h2 => !(h2.site_group_name == "ocf"))).filter
        (fun h2 => h2.site_uuids.contains "uuid-b") =
      (dbSample.site_groups.filter (fun h2 => !(h2.site_group_name == "ocf"))).filter
        (fun h2 => h2.site_uuids.contains "uuid-b") :=
  update_site_group_frame dbSample "uuid-b" "ocf"
    { site_group_name := "ocf", site_uuids := ["uuid-a", "uuid-b"] }
    [("uuid-a", "ca"), ("uuid-b", "cb")] ["ocf"] dbAfterBulk rfl

/-- The names of the groups a user (identified by email) is a member of,
as derived from the group-membership view `groupUsers`. -/
def userGroupNames (db : DB) (email : String) : List String :=
  (db.site_groups.filter (fun g => (groupUsers db g).contains email)).map
    (fun g => g.site_group_name)

lemma filter_name_eq_of_nodup :
    ∀ (l : List SiteGroup) (g : SiteGroup) (n : String),
      (l.map (fun x => x.site_group_name)).Nodup → g ∈ l → g.site_group_name = n →
      l.filter (fun x => x.site_group_name == n) = [g]
  | [], g, n, _, hmem, _ => absurd hmem (List.not_mem_nil g)
  | b :: bs, g, n, hnodup, hmem, hname => by
    simp only [List.map_cons, List.nodup_cons] at hnodup
    rcases List.mem_cons.mp hmem with hgb | hgbs
    · subst hgb
      have hb : (g.site_group_name == n) = true := by simp [hname]
      have hrest : bs.filter (fun x => x.site_group_name == n) = [] := by
        apply List.filter_eq_nil_iff.mpr
        intro x hx
        simp only [beq_iff_eq]
        intro hxeq
        apply hnodup.1
        rw [hname, ← hxeq]
        exact List.mem_map_of_mem (fun x => x.site_group_name) hx
      simp [List.filter_cons, hb, hrest]
    · have hbn : (b.site_group_name == n) = false := by
        apply beq_eq_false_iff_ne.mpr
        intro hbeq
        apply hnodup.1
        rw [hbeq, ← hname]
        exact List.mem_map_of_mem (fun x => x.site_group_name) hgbs
      simp only [List.filter_cons, hbn, Bool.false_eq_true, if_false]
      exact filter_name_eq_of_nodup bs g n hnodup.2 hgbs hname

/-- Closed form of a successful `change_user_site_group`: every user row
carrying the email is reassigned to the named group, and the helper
reports the email and the new group's name. -/
lemma change_user_site_group_spec (db : DB) (email gnB : String) (u : User)
    (gB : SiteGroup) (hu : get_user_by_email db email = some u)
    (hg : get_site_group_by_name db gnB = some gB) :
    change_user_site_group db email gnB = .ok (email, gnB,
      { db with
        users := db.users.map (fun u2 =>
          if u2.email = email then { u2 with site_group_name := gnB } else u2) }) := by
  have hm : get_user_by_email
      ({ db with
        users := db.users.map (fun u2 =>
          if u2.email = email then { u2 with site_group_name := gnB } else u2) } : DB)
      email = some { u with site_group_name := gnB } := by
    show (db.users.map (fun u2 =>
        if u2.email = email then { u2 with site_group_name := gnB } else u2)).find?
      (fun x => x.email == email) = _
    rw [List.find?_map]
    have hpred : ((fun x : User => x.email == email) ∘ (fun u2 =>
        if u2.email = email then { u2 with site_group_name := gnB } else u2)) =
        (fun x : User => x.email == email) := by
      funext r
      by_cases hr : r.email = email <;> simp [hr]
    rw [hpred, show db.users.find? (fun x => x.email == email) = some u from hu]
    have hue : u.email = email := get_user_by_email_email hu
    simp [hue]
  simp only [change_user_site_group, update_user_site_group, hu, hg]
  rw [hm]
  have hgB : get_site_group_by_name
      ({ db with
        users := db.users.map (fun u2 =>
          if u2.email = email then { u2 with site_group_name := gnB } else u2) } : DB)
      gnB = some gB := hg
  dsimp only
  rw [hgB]
  dsimp only
  rw [get_user_by_email_email hu, get_site_group_by_name_name hg]

/-- C5: after `change_user_site_group` reassigns a user to group B, the
user belongs to exactly one group — B — so membership in the previous
group A is removed entirely; the helper reports the email and B's name. -/
theorem change_user_site_group_exclusive (db : DB) (email gnB : String) (u : User)
    (gB : SiteGroup) (hu : get_user_by_email db email = some u)
    (hg : get_site_group_by_name db gnB = some gB)
    (hnodup : (db.site_groups.map (fun x => x.site_group_name)).Nodup) :
    (change_user_site_group db email gnB).toOption.map (fun r => (r.1, r.2.1)) =
      some (email, gnB) ∧
    (change_user_site_group db email gnB).toOption.map
      (fun r => userGroupNames r.2.2 email) = some [gnB] := by
  rw [change_user_site_group_spec db email gnB u gB hu hg]
  refine ⟨rfl, ?_⟩
  show some (userGroupNames _ email) = some [gnB]
  congr 1
  have key : ∀ g2 : SiteGroup,
      ((groupUsers
        ({ db with
          users := db.users.map (fun u2 =>
            if u2.email = email then { u2 with site_group_name := gnB } else u2) } : DB)
        g2).contains email) = (g2.site_group_name == gnB) := by
    intro g2
    by_cases hb : g2.site_group_name = gnB
    · have : email ∈ (groupUsers
          ({ db with
            users := db.users.map (fun u2 =>
              if u2.email = email then { u2 with site_group_name := gnB } else u2) } : DB)
          g2) := by
        apply List.mem_map.mpr
        refine ⟨{ u with site_group_name := gnB }, ?_,
          show ({ u with site_group_name := gnB } : User).email = email from
            @get_user_by_email_email db email u hu⟩
        apply List.mem_filter.mpr
        constructor
        · apply List.mem_map.mpr
          exact ⟨u, get_user_by_email_mem hu, by simp [get_user_by_email_email hu]⟩
        · simp [hb]
      simp [hb, this]
    · have hnone : email ∉ (groupUsers
          ({ db with
            users := db.users.map (fun u2 =>
              if u2.email = email then { u2 with site_group_name := gnB } else u2) } : DB)
          g2) := by
        intro hcontra
        rcases List.mem_map.mp hcontra with ⟨x, hxf, hxe⟩
        rcases List.mem_filter.mp hxf with ⟨hxin, hxg⟩
        rcases List.mem_map.mp hxin with ⟨r, _, hrx⟩
        by_cases hr : r.email = email
        · rw [if_pos hr] at hrx
          rw [← hrx] at hxg
          simp only [beq_iff_eq] at hxg
          exact hb (hxg ▸ rfl)
        · rw [if_neg hr] at hrx
          rw [← hrx] at hxe
          exact hr hxe
      simp [hb, hnone]
  simp only [userGroupNames]
  rw [List.filter_congr (fun g2 _ => key g2)]
  rw [filter_name_eq_of_nodup db.site_groups gB gnB hnodup
    (get_site_group_by_name_mem hg) (get_site_group_by_name_name hg)]
  simp [get_site_group_by_name_name hg]

/-- Witness for C5 at a concrete state: moving "u@x.com" from "ocf" to
"grp2". -/
theorem change_user_site_group_exclusive_witness :
    (change_user_site_group dbSample "u@x.com" "grp2").toOption.map
      (fun r => (r.1, r.2.1)) = some ("u@x.com", "grp2") ∧
    (change_user_site_group dbSample "u@x.com" "grp2").toOption.map
      (fun r => userGroupNames r.2.2 "u@x.com") = some ["grp2"] :=
  change_user_site_group_exclusive dbSample "u@x.com" "grp2" userU grp2 rfl rfl
    (by decide)

/-- The page's composition for viewing a site selected by client site id
(src/sites_toolbox.py lines 214-219): `select_site_id` with query method
"client_site_id", then `get_site_details` on the returned UUID. -/
def details_via_client_site_id (db : DB) (cid : String) : Option SiteDetails :=
  match select_site_id db "client_site_id" cid with
  | .ok (some u) => (get_site_details db u).toOption
  | _ => none

/-- C6: a client site id matching no site makes the client-id lookup fail
with NotFound; a client site id matching exactly one site `s` resolves
through `select_site_id` to `s`'s UUID, and the detail view reached that
way is identical to the direct UUID-based `get_site_details` view. -/
theorem client_site_id_lookup_agrees_with_uuid_lookup (db : DB) (cid : String) :
    ((∀ s ∈ db.sites, s.client_site_id ≠ cid) →
      lookup_uuid_by_client_site_id db cid = .error .NotFound) ∧
    (∀ s : Site, db.sites.filter (fun t => t.client_site_id == cid) = [s] →
      select_site_id db "client_site_id" cid = .ok (some s.site_uuid) ∧
      details_via_client_site_id db cid = (get_site_details db s.site_uuid).toOption) := by
  constructor
  · intro hnone
    have h0 : get_site_by_client_site_id db cid = none := by
      apply List.find?_eq_none.mpr
      intro s hs
      simp [hnone s hs]
    simp [lookup_uuid_by_client_site_id, h0]
  · intro s hfilter
    have hmem : s ∈ db.sites ∧ (s.client_site_id == cid) = true := by
      have hsf : s ∈ db.sites.filter (fun t => t.client_site_id == cid) := by
        rw [hfilter]; simp
      exact List.mem_filter.mp hsf
    have hcid : s.client_site_id = cid := by simpa using hmem.2
    have hin : cid ∈ db.sites.map (fun t => t.client_site_id) :=
      List.mem_map.mpr ⟨s, hmem.1, hcid⟩
    have hsel : st_selectbox (db.sites.map (fun t => t.client_site_id)) cid = some cid := by
      simp [st_selectbox, hin]
    have hfind : get_site_by_client_site_id db cid = some s := by
      cases hf : db.sites.find? (fun t => t.client_site_id == cid) with
      | none =>
        exfalso
        have hc := List.find?_eq_none.mp hf s hmem.1
        simp [hcid] at hc
      | some t =>
        have hpt := List.find?_some hf
        have ht : t ∈ db.sites.filter (fun x => x.client_site_id == cid) :=
          List.mem_filter.mpr ⟨List.mem_of_find?_eq_some hf, hpt⟩
        rw [hfilter] at ht
        have hts : t = s := by simpa using ht
        rw [show get_site_by_client_site_id db cid =
          db.sites.find? (fun t => t.client_site_id == cid) from rfl, hf, hts]
    have hselect : select_site_id db "client_site_id" cid = .ok (some s.site_uuid) := by
      simp [select_site_id, hsel, lookup_uuid_by_client_site_id, hfind]
    exact ⟨hselect, by simp [details_via_client_site_id, hselect]⟩

/-- Witness for C6 at a concrete state: "zz" matches no site of
`dbSample`; "cb" matches exactly `siteB`. -/
theorem client_site_id_lookup_agrees_with_uuid_lookup_witness :
    lookup_uuid_by_client_site_id dbSample "zz" = .error .NotFound ∧
    (select_site_id dbSample "client_site_id" "cb" = .ok (some siteB.site_uuid) ∧
     details_via_client_site_id dbSample "cb" =
       (get_site_details dbSample siteB.site_uuid).toOption) :=
  ⟨(client_site_id_lookup_agrees_with_uuid_lookup dbSample "zz").1 (by decide),
   (client_site_id_lookup_agrees_with_uuid_lookup dbSample "cb").2 siteB (by decide)⟩

/-- C7: user detail lookup on an email that resolves to a user whose group
record exists returns the name of the user's actual current group, the
group's sites as (site_uuid, client_site_id) pairs, and a site count equal
to the number of sites in that group; an email matching no user fails with
NotFound. -/
theorem get_user_details_correct (db : DB) :
    (∀ email, get_user_by_email db email = none →
      get_user_details db email = .error .NotFound) ∧
    (∀ email (u : User) (g : SiteGroup), get_user_by_email db email = some u →
      get_site_group_by_name db u.site_group_name = some g →
      get_user_details db email = .ok
        ((groupSites db g).map (fun s => (s.site_uuid, s.client_site_id)),
         g.site_group_name, (groupSites db g).length)) := by
  constructor
  · intro email h
    simp [get_user_details, h]
  · intro email u g hu hg
    simp [get_user_details, hu, hg]

/-- Witness for C7 at a concrete state: "ghost@x.com" matches no user of
`dbSample`; "u@x.com" is in the "ocf" group, which holds one site. -/
theorem get_user_details_correct_witness :
    get_user_details dbSample "ghost@x.com" = .error .NotFound ∧
    get_user_details dbSample "u@x.com" = .ok
      ((groupSites dbSample ocfGroup).map (fun s => (s.site_uuid, s.client_site_id)),
       ocfGroup.site_group_name, (groupSites dbSample ocfGroup).length) :=
  ⟨(get_user_details_correct dbSample).1 "ghost@x.com" rfl,
   (get_user_details_correct dbSample).2 "u@x.com" userU ocfGroup rfl rfl⟩

/-- C8 (code bug): the "Create new site" guard tests `None in [...]`, but
every checked value is an `st.text_input` result — a string, never `None` —
so the guard never fires: for every submission, including ones with empty
required fields, the handler proceeds to call `create_new_site` with the
collected (possibly empty) field values instead of reporting missing
data. -/
theorem create_site_submit_bypasses_presence_check :
    ∀ csi csn di dn dln gi gn lat lon reg ori til icap mcap cap : String,
      create_new_site_submit csi csn di dn dln gi gn lat lon reg ori til icap mcap cap =
        .create_called [csi, csn, reg, json_dumps_dno di dn dln, json_dumps_gsp gi gn,
          ori, til, lat, lon, icap, mcap, cap] := by
  intro csi csn di dn dln gi gn lat lon reg ori til icap mcap cap
  rfl

/-- C10 counterexample: on an empty sites table both valid query methods
fail to return a site UUID string — the "site_uuid" path returns the empty
select box's Python `None` and the "client_site_id" path fails with
NotFound — refuting "for the two valid query_method values it always
returns a site UUID string" as stated. -/
theorem select_site_id_empty_db_counterexample :
    select_site_id emptyDB "site_uuid" "x" = .ok none ∧
    select_site_id emptyDB "client_site_id" "x" = .error .NotFound :=
  ⟨rfl, rfl⟩

/-- C10 (amended): for every query_method other than "site_uuid" and
"client_site_id", `select_site_id` returns ValueError (for any database
state, i.e. without consulting it); for the two valid query methods it
returns the UUID of one of the database's sites whenever the sites table
is non-empty. -/
theorem select_site_id_cases (db : DB) (qm choice : String) :
    (qm ≠ "site_uuid" → qm ≠ "client_site_id" →
      select_site_id db qm choice = .error .ValueError) ∧
    (db.sites ≠ [] → qm = "site_uuid" ∨ qm = "client_site_id" →
      select_site_id db qm choice ∈ db.sites.map
        (fun s => (Except.ok (some s.site_uuid) : Except ToolboxError (Option String)))) := by
  constructor
  · intro h1 h2
    simp [select_site_id, h1, h2]
  · intro hne hvalid
    rcases hvalid with hq | hq
    · subst hq
      rw [show select_site_id db "site_uuid" choice =
        .ok (st_selectbox (db.sites.map (fun s => s.site_uuid)) choice) from rfl]
      simp only [st_selectbox]
      by_cases hc : choice ∈ db.sites.map (fun s => s.site_uuid)
      · rw [if_pos hc]
        rcases List.mem_map.mp hc with ⟨s, hs, heq⟩
        exact List.mem_map.mpr ⟨s, hs, by rw [heq]⟩
      · rw [if_neg hc]
        cases hdb : db.sites with
        | nil => exact absurd hdb hne
        | cons s rest =>
          simp only [List.map_cons, List.head?]
          exact List.mem_cons_self _ _
    · subst hq
      obtain ⟨cid, hsel, hcidmem⟩ : ∃ cid,
          st_selectbox (db.sites.map (fun t => t.client_site_id)) choice = some cid ∧
          cid ∈ db.sites.map (fun t => t.client_site_id) := by
        by_cases hc : choice ∈ db.sites.map (fun t => t.client_site_id)
        · exact ⟨choice, by simp [st_selectbox, hc], hc⟩
        · cases hdb : db.sites with
          | nil => exact absurd hdb hne
          | cons s0 rest =>
            rw [hdb] at hc
            refine ⟨s0.client_site_id, ?_, by simp⟩
            rw [show st_selectbox (List.map (fun t => t.client_site_id) (s0 :: rest)) choice =
              if choice ∈ List.map (fun t => t.client_site_id) (s0 :: rest) then some choice
              else (List.map (fun t => t.client_site_id) (s0 :: rest)).head? from rfl,
              if_neg hc]
            rfl
      rw [show select_site_id db "client_site_id" choice =
          (match st_selectbox (db.sites.map (fun t => t.client_site_id)) choice with
           | none => (.error .NotFound : Except ToolboxError (Option String))
           | some cid => lookup_uuid_by_client_site_id db cid) from rfl,
        hsel]
      rcases List.mem_map.mp hcidmem with ⟨t, htmem, htcid⟩
      cases hf : get_site_by_client_site_id db cid with
      | none =>
        exfalso
        have hct := List.find?_eq_none.mp hf t htmem
        simp [htcid] at hct
      | some site =>
        simp only [lookup_uuid_by_client_site_id, hf]
        exact List.mem_map.mpr ⟨site, List.mem_of_find?_eq_some hf, rfl⟩

/-- Witness for the amended C10 at a concrete state: an invalid query
method yields ValueError, and the "site_uuid" path over the non-empty
`dbSample` yields a site's UUID. -/
theorem select_site_id_cases_witness :
    select_site_id dbSample "bogus" "x" = .error .ValueError ∧
    select_site_id dbSample "site_uuid" "uuid-a" ∈ dbSample.sites.map
      (fun s => (Except.ok (some s.site_uuid) : Except ToolboxError (Option String))) :=
  ⟨(select_site_id_cases dbSample "bogus" "x").1 (by decide) (by decide),
   (select_site_id_cases dbSample "site_uuid" "uuid-a").2 (by decide) (Or.inl rfl)⟩

/-! C9 concerns the *shape* of the helpers' return values as Python data.
`PyVal` is the universe of values the page receives; each `_py` function
renders the corresponding helper's successful return value (a tuple,
rendered as the list of its components) exactly as the Python code builds
it. -/

/-- A Python value as returned by the helpers: strings, integers, lists,
string-keyed dicts, or a leaked ORM site-group entity. -/
inductive PyVal where
  | str : String → PyVal
  | int : Int → PyVal
  | list : List PyVal → PyVal
  | dict : List (String × PyVal) → PyVal
  | entity : SiteGroup → PyVal

def isStrVal : PyVal → Bool
  | .str _ => true
  | _ => false

def isStrListVal : PyVal → Bool
  | .list xs => xs.all isStrVal
  | _ => false

def isStrDictVal : PyVal → Bool
  | .dict kvs => kvs.all (fun kv => isStrVal kv.2)
  | _ => false

/-- The claim's notion of plain display data: a string, a list of strings,
or a mapping from strings to strings. -/
def isPlainDisplayValue (v : PyVal) : Bool :=
  isStrVal v || isStrListVal v || isStrDictVal v

/-- Display data as the code actually shapes it: additionally an integer
count, a list of string-to-string mappings, or a mapping whose values are
strings or lists of strings — still free of UI or database entities. -/
def isDisplayData (v : PyVal) : Bool :=
  isPlainDisplayValue v ||
  (match v with
   | .int _ => true
   | .list xs => xs.all isStrDictVal
   | .dict kvs => kvs.all (fun kv => isStrVal kv.2 || isStrListVal kv.2)
   | _ => false)

/-- The `{"site_uuid": ..., "client_site_id": ...}` dictionaries the
helpers build for lists of sites. -/
def sitePairsPy (pairs : List (String × String)) : PyVal :=
  .list (pairs.map (fun p =>
    .dict [("site_uuid", .str p.1), ("client_site_id", .str p.2)]))

def get_user_details_py (db : DB) (email : String) : Option (List PyVal) :=
  match get_user_details db email with
  | .error _ => none
  | .ok (sites, gname, count) => some [sitePairsPy sites, .str gname, .int count]

/-- The dictionary `get_site_details` returns, key for key. -/
def site_details_py (d : SiteDetails) : PyVal :=
  .dict [("site_uuid", .str d.site_uuid), ("client_site_id", .str d.client_site_id),
    ("client_site_name", .str d.client_site_name),
    ("site_group_names", .list (d.site_group_names.map PyVal.str)),
    ("latitude", .str d.latitude), ("longitude", .str d.longitude),
    ("region", .str d.region), ("DNO", .str d.dno), ("GSP", .str d.gsp),
    ("tilt", .str d.tilt), ("orientation", .str d.orientation),
    ("inverter_capacity_kw", .str d.inverter_capacity_kw),
    ("module_capacity_kw", .str d.module_capacity_kw),
    ("capacity", .str d.capacity), ("date_added", .str d.date_added)]

def get_site_details_py (db : DB) (site_uuid : String) : Option (List PyVal) :=
  match get_site_details db site_uuid with
  | .error _ => none
  | .ok d => some [site_details_py d]

def get_site_group_details_py (db : DB) (gname : String) : Option (List PyVal) :=
  match get_site_group_details db gname with
  | .error _ => none
  | .ok (pairs, emails) => some [sitePairsPy pairs, .list (emails.map PyVal.str)]

def update_site_group_py (db : DB) (su gn : String) : Option (List PyVal) :=
  match update_site_group db su gn with
  | .error _ => none
  | .ok (g, pairs, names, _) =>
    some [.entity g, sitePairsPy pairs, .list (names.map PyVal.str)]

def change_user_site_group_py (db : DB) (email gn : String) : Option (List PyVal) :=
  match change_user_site_group db email gn with
  | .error _ => none
  | .ok (em, gname, _) => some [.str em, .str gname]

def add_all_sites_to_ocf_group_py (db : DB) (gn : String) : Option (List PyVal) :=
  match add_all_sites_to_ocf_group db gn with
  | .error _ => none
  | .ok (msg, added, _) => some [.str msg, .list (added.map PyVal.str)]

lemma all_map_eq {α β : Type} (f : α → β) (p : β → Bool) :
    ∀ l : List α, (l.map f).all p = l.all (fun a => p (f a))
  | [] => rfl
  | a :: l => by simp only [List.map_cons, List.all_cons, all_map_eq f p l]

lemma strListVal_map (l : List String) : (l.map PyVal.str).all isStrVal = true := by
  rw [all_map_eq]
  apply List.all_eq_true.mpr
  intro x hx
  rfl

lemma strList_plain (l : List String) :
    isPlainDisplayValue (.list (l.map PyVal.str)) = true := by
  show (isStrVal (.list (l.map PyVal.str)) || isStrListVal (.list (l.map PyVal.str)) ||
    isStrDictVal (.list (l.map PyVal.str))) = true
  have h2 : isStrListVal (PyVal.list (l.map PyVal.str)) = true := strListVal_map l
  rw [h2, Bool.or_true, Bool.true_or]

lemma isDisplayData_of_plain (v : PyVal) (h : isPlainDisplayValue v = true) :
    isDisplayData v = true := by
  simp only [isDisplayData, h, Bool.true_or]

lemma isDisplayData_str (s : String) : isDisplayData (PyVal.str s) = true := rfl

lemma isDisplayData_int (n : Int) : isDisplayData (PyVal.int n) = true := rfl

lemma isPlain_str (s : String) : isPlainDisplayValue (PyVal.str s) = true := rfl

lemma sitePairsPy_displayData (pairs : List (String × String)) :
    isDisplayData (sitePairsPy pairs) = true := by
  have h : (pairs.map (fun p => PyVal.dict [("site_uuid", PyVal.str p.1),
      ("client_site_id", PyVal.str p.2)])).all isStrDictVal = true := by
    rw [all_map_eq]
    apply List.all_eq_true.mpr
    intro x hx
    rfl
  show (isPlainDisplayValue (sitePairsPy pairs) ||
    (pairs.map (fun p => PyVal.dict [("site_uuid", PyVal.str p.1),
      ("client_site_id", PyVal.str p.2)])).all isStrDictVal) = true
  rw [h, Bool.or_true]

lemma site_details_py_displayData (d : SiteDetails) :
    isDisplayData (site_details_py d) = true := by
  have hsg : (d.site_group_names.map PyVal.str).all isStrVal = true :=
    strListVal_map d.site_group_names
  simp only [isDisplayData, site_details_py, isStrVal, isStrListVal, List.all_cons,
    List.all_nil, hsg, Bool.or_true, Bool.true_or, Bool.and_true, Bool.true_and,
    Bool.or_false, Bool.false_or]

/-- C9 counterexample: the values returned by `get_user_details` (resp.
`update_site_group`) at a concrete state are not all strings, lists of
strings, or string-to-string mappings: the site count is an integer, the
site list is a list of dictionaries, and `update_site_group`'s first
component is the ORM group entity. -/
theorem helpers_plain_data_counterexample :
    get_user_details_py dbSample "u@x.com" =
      some [PyVal.list [PyVal.dict [("site_uuid", PyVal.str "uuid-a"),
              ("client_site_id", PyVal.str "ca")]],
            PyVal.str "ocf", PyVal.int 1] ∧
    ([PyVal.list [PyVal.dict [("site_uuid", PyVal.str "uuid-a"),
              ("client_site_id", PyVal.str "ca")]],
      PyVal.str "ocf", PyVal.int 1].all isPlainDisplayValue) = false ∧
    update_site_group_py dbSample "uuid-a" "ocf" =
      some [PyVal.entity ocfGroup,
            PyVal.list [PyVal.dict [("site_uuid", PyVal.str "uuid-a"),
              ("client_site_id", PyVal.str "ca")]],
            PyVal.list [PyVal.str "ocf"]] ∧
    ([PyVal.entity ocfGroup,
      PyVal.list [PyVal.dict [("site_uuid", PyVal.str "uuid-a"),
        ("client_site_id", PyVal.str "ca")]],
      PyVal.list [PyVal.str "ocf"]].all isPlainDisplayValue) = false :=
  ⟨rfl, rfl, rfl, rfl⟩

/-- C9 (amended): every helper returns plain structured data — strings,
integer counts, lists of strings, lists of string-to-string mappings, and
string-keyed mappings whose values are strings or lists of strings — with
the single exception that `update_site_group`'s first component is the ORM
group entity (its remaining components are such plain data). -/
theorem helpers_return_display_data :
    (∀ (db : DB) (email : String) (vals : List PyVal),
      get_user_details_py db email = some vals → vals.all isDisplayData = true) ∧
    (∀ (db : DB) (su : String) (vals : List PyVal),
      get_site_details_py db su = some vals → vals.all isDisplayData = true) ∧
    (∀ (db : DB) (gn : String) (vals : List PyVal),
      get_site_group_details_py db gn = some vals → vals.all isDisplayData = true) ∧
    (∀ (db : DB) (email gn : String) (vals : List PyVal),
      change_user_site_group_py db email gn = some vals →
      vals.all isPlainDisplayValue = true) ∧
    (∀ (db : DB) (gn : String) (vals : List PyVal),
      add_all_sites_to_ocf_group_py db gn = some vals →
      vals.all isPlainDisplayValue = true) ∧
    (∀ (db : DB) (su gn : String) (vals : List PyVal),
      update_site_group_py db su gn = some vals →
      ∃ g rest, vals = PyVal.entity g :: rest ∧ rest.all isDisplayData = true) := by
  refine ⟨?_, ?_, ?_, ?_, ?_, ?_⟩
  · intro db email vals h
    cases hr : get_user_details db email with
    | error e => simp [get_user_details_py, hr] at h
    | ok r =>
      rcases r with ⟨sites, gname, count⟩
      simp only [get_user_details_py, hr] at h
      cases h
      simp [List.all_cons, List.all_nil, sitePairsPy_displayData, isDisplayData_str,
        isDisplayData_int]
  · intro db su vals h
    cases hr : get_site_details db su with
    | error e => simp [get_site_details_py, hr] at h
    | ok d =>
      simp only [get_site_details_py, hr] at h
      cases h
      simp [List.all_cons, List.all_nil, site_details_py_displayData]
  · intro db gn vals h
    cases hr : get_site_group_details db gn with
    | error e => simp [get_site_group_details_py, hr] at h
    | ok r =>
      rcases r with ⟨pairs, emails⟩
      simp only [get_site_group_details_py, hr] at h
      cases h
      simp [List.all_cons, List.all_nil, sitePairsPy_displayData,
        isDisplayData_of_plain _ (strList_plain emails)]
  · intro db email gn vals h
    cases hr : change_user_site_group db email gn with
    | error e => simp [change_user_site_group_py, hr] at h
    | ok r =>
      rcases r with ⟨em, gname, d⟩
      simp only [change_user_site_group_py, hr] at h
      cases h
      simp [List.all_cons, List.all_nil, isPlain_str]
  · intro db gn vals h
    cases hr : add_all_sites_to_ocf_group db gn with
    | error e => simp [add_all_sites_to_ocf_group_py, hr] at h
    | ok r =>
      rcases r with ⟨msg, added, d⟩
      simp only [add_all_sites_to_ocf_group_py, hr] at h
      cases h
      simp [List.all_cons, List.all_nil, isPlain_str, strList_plain]
  · intro db su gn vals h
    cases hr : update_site_group db su gn with
    | error e => simp [update_site_group_py, hr] at h
    | ok r =>
      rcases r with ⟨g, pairs, names, d⟩
      simp only [update_site_group_py, hr] at h
      cases h
      refine ⟨g, [sitePairsPy pairs, PyVal.list (names.map PyVal.str)], rfl, ?_⟩
      simp [List.all_cons, List.all_nil, sitePairsPy_displayData,
        isDisplayData_of_plain _ (strList_plain names)]

/-- Witness for the amended C9 at a concrete state: the values
`get_user_details` returns over `dbSample` are display data. -/
theorem helpers_return_display_data_witness :
    ([sitePairsPy [("uuid-a", "ca")], PyVal.str "ocf", PyVal.int 1].all isDisplayData)
      = true :=
  helpers_return_display_data.1 dbSample "u@x.com"
    [sitePairsPy [("uuid-a", "ca")], PyVal.str "ocf", PyVal.int 1] rfl

end SitesToolbox
